import Mathlib

/-!
Verification of the environmental affectation analysis engine of the
catastro16 repository (src/services/advanced_analysis.py and src/15.py).

The pixel pipeline is embedded shallowly: images are lists of rows of RGB
triples (channel values as integers, 0..255 in practice), boolean masks are
lists of rows of `Bool`, and numpy reductions become list folds.  Numpy
floating-point division is embedded over `ℚ`, with non-finite results
(NaN/inf, arising from division by zero) represented as `none` in an
`Option ℚ`.
-/

namespace Catastro

/-- An RGB pixel: (red, green, blue) channel values. -/
abbrev Pix := ℤ × ℤ × ℤ

/-- A raster image: rows of pixels (row-major, row 0 at the top). -/
abbrev Image := List (List Pix)

/-- A boolean mask with the same layout as an `Image`. -/
abbrev Mask := List (List Bool)

/-- The per-candidate-color test of `detectar_color_multiple`
(src/services/advanced_analysis.py lines 390-392): all three per-channel
absolute differences between the pixel and the candidate color are at most
the tolerance. -/
def matchColor (tol : ℤ) (c p : Pix) : Bool :=
  decide (|p.1 - c.1| ≤ tol) && decide (|p.2.1 - c.2.1| ≤ tol) &&
    decide (|p.2.2 - c.2.2| ≤ tol)

/-- Embedding of `detectar_color_multiple` (src/services/advanced_analysis.py
lines 384-395): starting from an all-false mask, OR in, for each candidate
color, the per-pixel test that every channel difference is within tolerance. -/
def detectar_color_multiple (pixels : Image) (colores : List Pix)
    (tolerancia : ℤ) : Mask :=
  pixels.map (fun row => row.map (fun p =>
    colores.any (fun c => matchColor tolerancia c p)))

/-- Number of `true` cells of a mask (numpy `np.sum` of a boolean array). -/
def countMask (m : Mask) : ℕ :=
  (m.map (fun row => row.count true)).sum

/-- Cellwise conjunction of two masks (numpy `&` on boolean arrays). -/
def maskAnd (a b : Mask) : Mask :=
  (a.zip b).map (fun rr => (rr.1.zip rr.2).map (fun cc => cc.1 && cc.2))

/-- Embedding of `pixels_full_masked[~self.mascara] = [255, 255, 255]`
(src/services/advanced_analysis.py line 433) applied to a fresh copy of the
pixel array: pixels outside the mask are overwritten with white. -/
def blanquearFuera (pixels : Image) (m : Mask) : Image :=
  (pixels.zip m).map (fun rm => (rm.1.zip rm.2).map (fun pb =>
    if pb.2 then pb.1 else ((255 : ℤ), (255 : ℤ), (255 : ℤ))))

/-- Embedding of `pixels[self.mascara]` (src/services/advanced_analysis.py
line 416): the row-major list of pixels at mask-true positions. -/
def maskedPixels (pixels : Image) (m : Mask) : List Pix :=
  ((pixels.zip m).map (fun rm => (rm.1.zip rm.2).filterMap (fun pb =>
    if pb.2 then some pb.1 else none))).flatten

/-- Embedding of `np.sum(np.all(pixels_dentro > 240, axis=0))`
(src/services/advanced_analysis.py lines 423-424).  The reduction runs over
axis 0, the pixel axis of the (N,3)-shaped masked pixel list, so the result
counts the CHANNELS c for which every pixel exceeds 240 on channel c (a value
in 0..3), not the pixels that are near-white.  `np.all` of an empty axis is
true, matching `List.all` on `[]`. -/
def blancosAxis0 (ps : List Pix) : ℕ :=
  (if ps.all (fun p => decide (240 < p.1)) then 1 else 0) +
    (if ps.all (fun p => decide (240 < p.2.1)) then 1 else 0) +
    (if ps.all (fun p => decide (240 < p.2.2)) then 1 else 0)

/-- Division over ℚ standing for numpy float division; `none` stands for the
non-finite results (NaN or ±inf) that a zero denominator produces. -/
def divOrNone (a b : ℚ) : Option ℚ :=
  if b = 0 then none else some (a / b)

/-- Round-half-to-even to an integer, as Python's builtin `round`. -/
def roundHalfEven (x : ℚ) : ℤ :=
  let f := ⌊x⌋
  let r := x - (f : ℚ)
  if r < 1/2 then f
  else if 1/2 < r then f + 1
  else if f % 2 = 0 then f else f + 1

/-- Python's `round(x, 2)`: round half-to-even at two decimal places. -/
def pyRound2 (x : ℚ) : ℚ := (roundHalfEven (x * 100) : ℚ) / 100

/-- Per-layer configuration: the candidate colors and the tolerance of one
entry of `self.capas` (src/services/advanced_analysis.py lines 30-73). -/
structure Capa where
  colores_posibles : List Pix
  tolerancia : ℤ
deriving DecidableEq, Repr

/-- The pixel-count fields of the dictionary returned by `analizar_pixeles`
(src/services/advanced_analysis.py lines 467-480).  `area_util` is an `ℤ`
because the source computes `total_pixels_poligono - pixels_blancos`, which
can be negative.  The two percentages are `Option ℚ`: `none` models a
non-finite float (NaN from 0/0). -/
structure Resultado where
  total_pixels_poligono : ℕ
  pixels_blancos : ℕ
  area_util : ℤ
  pixels_afectados : ℕ
  porcentaje_afectacion : Option ℚ
  porcentaje_sobre_total : Option ℚ
deriving DecidableEq, Repr

/-- Outcome of `analizar_pixeles`: either the error dictionary
`{'error': 'Imagen no disponible'}` or the analysis result. -/
inductive AnalisisOutcome where
  | error : String → AnalisisOutcome
  | ok : Resultado → AnalisisOutcome
deriving DecidableEq, Repr

/-- Embedding of `analizar_pixeles` (src/services/advanced_analysis.py lines
397-480), restricted to the pixel-count and percentage fields.  `mascara` is
`self.mascara` (`none` when no mask was built), `imagen` is `none` when the
WMS download failed.  The blank-pixel computation reproduces the source's
`axis=0` reduction (see `blancosAxis0`), and the affected count follows the
source exactly: copy the array, whiten outside the mask, run the multi-color
detection, AND with the mask, and sum. -/
def analizar_pixeles (mascara : Option Mask) (imagen : Option Image)
    (config : Capa) : AnalisisOutcome :=
  match imagen with
  | none => .error "Imagen no disponible"
  | some pixels =>
    let pixels_dentro : List Pix :=
      match mascara with
      | some m => maskedPixels pixels m
      | none => pixels.flatten
    let total_pixels_poligono : ℕ := pixels_dentro.length
    let pixels_blancos : ℕ := blancosAxis0 pixels_dentro
    let area_util : ℤ := (total_pixels_poligono : ℤ) - (pixels_blancos : ℤ)
    let num_afectados : ℕ :=
      match mascara with
      | some m =>
        countMask (maskAnd
          (detectar_color_multiple (blanquearFuera pixels m)
            config.colores_posibles config.tolerancia) m)
      | none =>
        countMask (detectar_color_multiple pixels
          config.colores_posibles config.tolerancia)
    let porcentaje_afectacion : Option ℚ :=
      if area_util = 0 then some 0
      else (divOrNone (num_afectados : ℚ) (area_util : ℚ)).map
        (fun q => pyRound2 (q * 100))
    let porcentaje_sobre_total : Option ℚ :=
      if area_util = 0 then some 0
      else (divOrNone (num_afectados : ℚ) (total_pixels_poligono : ℚ)).map
        (fun q => pyRound2 (q * 100))
    .ok ⟨total_pixels_poligono, pixels_blancos, area_util, num_afectados,
      porcentaje_afectacion, porcentaje_sobre_total⟩

/-- Embedding of `clasificar_afectacion` (src/services/advanced_analysis.py
lines 545-558): maps an affectation percentage to a (level, emoji) pair. -/
def clasificar_afectacion (porcentaje : ℚ) : String × String :=
  if porcentaje = 0 then ("SIN AFECTACIÓN", "✅")
  else if porcentaje < 5 then ("MUY BAJA", "🟢")
  else if porcentaje < 15 then ("BAJA", "🟡")
  else if porcentaje < 35 then ("MODERADA", "🟠")
  else if porcentaje < 60 then ("ALTA", "🔴")
  else ("MUY ALTA", "🔴")

/-- Embedding of the per-layer loop of `analizar_todas_capas`
(src/services/advanced_analysis.py lines 514-529): for each configured layer,
download the raster (`descargar` yields `none` on failure, as
`descargar_capa_wms` returns `None` after catching any exception) and store
the analysis outcome keyed by the layer name. -/
def analizar_todas_capas (mascara : Option Mask) (capas : List (String × Capa))
    (descargar : String → Option Image) : List (String × AnalisisOutcome) :=
  capas.map (fun nc => (nc.1, analizar_pixeles mascara (descargar nc.1) nc.2))

/-! ### Geographic to pixel mappings -/

/-- The bbox dictionary built by `parsear_kml`
(src/services/advanced_analysis.py lines 323-328). -/
structure BBoxA where
  minx : ℚ
  miny : ℚ
  maxx : ℚ
  maxy : ℚ
deriving DecidableEq, Repr

/-- Python's `int()` applied to a rational: truncation toward zero. -/
def ratTrunc (q : ℚ) : ℤ := if 0 ≤ q then ⌊q⌋ else -⌊-q⌋

/-- The x pixel coordinate computed by `crear_mascara_poligono`
(src/services/advanced_analysis.py line 341):
`int((lon - minx) / (maxx - minx) * width)`. -/
def pixel_x (bbox : BBoxA) (width : ℕ) (lon : ℚ) : ℤ :=
  ratTrunc ((lon - bbox.minx) / (bbox.maxx - bbox.minx) * (width : ℚ))

/-- The y pixel coordinate computed by `crear_mascara_poligono`
(src/services/advanced_analysis.py line 342):
`int((maxy - lat) / (maxy - miny) * height)`. -/
def pixel_y (bbox : BBoxA) (height : ℕ) (lat : ℚ) : ℤ :=
  ratTrunc ((bbox.maxy - lat) / (bbox.maxy - bbox.miny) * (height : ℚ))

/-- The bbox tuple `(lat_min, lon_min, lat_max, lon_max)` returned by
`get_bbox_from_polygons` (src/15.py line 56). -/
structure BBox15 where
  lat_min : ℚ
  lon_min : ℚ
  lat_max : ℚ
  lon_max : ℚ
deriving DecidableEq, Repr

/-- Element `i` of `np.linspace(a, b, n)`: `n` evenly spaced samples with both
endpoints included, so the step divides by `n - 1` (for `n = 1` numpy returns
`[a]`). -/
def linspace (a b : ℚ) (n i : ℕ) : ℚ :=
  if n ≤ 1 then a else a + (i : ℚ) * (b - a) / ((n : ℚ) - 1)

/-- Longitude of column `j` as sampled by `calcular_porcentaje_pixeles`
(src/15.py line 192): `xs = np.linspace(bbox[1], bbox[3], width)`. -/
def xs_sample (bbox : BBox15) (width j : ℕ) : ℚ :=
  linspace bbox.lon_min bbox.lon_max width j

/-- Latitude of row `i` as sampled by `calcular_porcentaje_pixeles`
(src/15.py line 193): `ys = np.linspace(bbox[0], bbox[2], height)`, i.e.
latitude INCREASES with the row index (row 0 is the minimum latitude). -/
def ys_sample (bbox : BBox15) (height i : ℕ) : ℚ :=
  linspace bbox.lat_min bbox.lat_max height i

/-- The affine mapping exactly as the spec words it (§3 PixelGrid):
longitude of pixel column x is `min_lon + x/width*(max_lon - min_lon)`. -/
def spec_lon_of_col (bbox : BBox15) (width j : ℕ) : ℚ :=
  bbox.lon_min + (j : ℚ) / (width : ℚ) * (bbox.lon_max - bbox.lon_min)

/-- The affine mapping exactly as the spec words it (§3 PixelGrid):
latitude of pixel row y is `max_lat - y/height*(max_lat - min_lat)`, with y
growing downward so that row 0 is the maximum latitude. -/
def spec_lat_of_row (bbox : BBox15) (height i : ℕ) : ℚ :=
  bbox.lat_max - (i : ℚ) / (height : ℚ) * (bbox.lat_max - bbox.lat_min)

/-! ### Polygons with holes (src/15.py) -/

/-- A ring: ordered (longitude, latitude) vertices, implicitly closed. -/
abbrev Ring := List (ℚ × ℚ)

/-- A polygon as a list of rings: ring 0 the exterior, later rings holes. -/
abbrev Poly := List Ring

/-- The closed edge list of a ring: consecutive vertex pairs plus the closing
edge from the last vertex back to the first. -/
def ringEdges (ring : Ring) : List ((ℚ × ℚ) × (ℚ × ℚ)) :=
  match ring with
  | [] => []
  | v :: vs => (v :: vs).zip (vs ++ [v])

/-- Whether the horizontal ray from point `p` to the right crosses edge `e`:
exactly one endpoint lies strictly above the ray, and `p` is strictly left of
the edge's intersection with the ray (stated fraction-free, with the
comparison multiplied through by the edge's vertical extent). -/
def edgeCrosses (p : ℚ × ℚ) (e : (ℚ × ℚ) × (ℚ × ℚ)) : Bool :=
  if e.1.2 ≤ p.2 then
    decide (p.2 < e.2.2) &&
      decide ((p.1 - e.1.1) * (e.2.2 - e.1.2) < (e.2.1 - e.1.1) * (p.2 - e.1.2))
  else
    decide (e.2.2 ≤ p.2) &&
      decide ((e.2.1 - e.1.1) * (p.2 - e.1.2) < (p.1 - e.1.1) * (e.2.2 - e.1.2))

/-- Modelled from the spec: the even-odd point-in-ring test ("standard
polygon-fill point-in-polygon rasterization using the even-odd ... rule
applied ring-by-ring", §4.2).  This models the containment test of the
external `shapely` library used by `calcular_porcentaje_pixeles`
(src/15.py line 198), whose code is not part of this repository: a point is
inside a ring iff a horizontal ray from it crosses the ring's edges an odd
number of times. -/
def evenOddInside (ring : Ring) (p : ℚ × ℚ) : Bool :=
  decide ((ringEdges ring).countP (fun e => edgeCrosses p e) % 2 = 1)

/-- Modelled from the spec: containment in a polygon-with-holes ("a pixel's
center is inside the polygon iff it is inside the exterior ring AND outside
every hole ring (holes subtract)", §4.2).  This models
`shapely.Polygon(exterior, interiors).contains`, built by
`polygons_to_shapely` (src/15.py lines 177-186) from ring 0 as the exterior
and the remaining rings as holes. -/
def polyContains (rings : Poly) (p : ℚ × ℚ) : Bool :=
  match rings with
  | [] => false
  | ext :: holes =>
    evenOddInside ext p && holes.all (fun h => !evenOddInside h p)

/-- Embedding of `polygons_to_shapely` (src/15.py lines 177-186): empty ring
lists are skipped (`if not rings: continue`); each remaining entry becomes a
polygon with ring 0 as exterior and the rest as holes, and the result is the
multipolygon of all of them. -/
def polygons_to_shapely (polygons : List Poly) : List Poly :=
  polygons.filter (fun rings => !rings.isEmpty)

/-- Containment in the multipolygon built by `polygons_to_shapely`: a point
is contained iff some member polygon contains it. -/
def multiContains (geoms : List Poly) (p : ℚ × ℚ) : Bool :=
  geoms.any (fun rings => polyContains rings p)

/-- The inclusion mask built by `calcular_porcentaje_pixeles`
(src/15.py lines 195-199): cell (i, j) is true iff the sample point
`(xs[j], ys[i])` is contained in the parcel multipolygon. -/
def mask15 (polygons : List Poly) (bbox : BBox15) (width height : ℕ) : Mask :=
  (List.range height).map (fun i => (List.range width).map (fun j =>
    multiContains (polygons_to_shapely polygons)
      (xs_sample bbox width j, ys_sample bbox height i)))

/-! ### Bounding box construction (src/15.py) -/

/-- Embedding of `get_bbox_from_polygons` (src/15.py lines 38-56): collect
every vertex of every ring of every polygon, take per-axis min and max, then
expand the box symmetrically about its center by the hardcoded
`zoom_factor = 3`.  Python's `min`/`max` raise `ValueError` on an empty
sequence; that failure is `none` here. -/
def get_bbox_from_polygons (polygons : List Poly) : Option BBox15 :=
  match (polygons.map (fun poly => poly.flatten)).flatten with
  | [] => none
  | pt :: pts =>
    let lat_min := (pts.map Prod.snd).foldl min pt.2
    let lat_max := (pts.map Prod.snd).foldl max pt.2
    let lon_min := (pts.map Prod.fst).foldl min pt.1
    let lon_max := (pts.map Prod.fst).foldl max pt.1
    let lat_center := (lat_min + lat_max) / 2
    let lon_center := (lon_min + lon_max) / 2
    let lat_half := (lat_max - lat_min) / 2
    let lon_half := (lon_max - lon_min) / 2
    some ⟨lat_center - lat_half * 3, lon_center - lon_half * 3,
          lat_center + lat_half * 3, lon_center + lon_half * 3⟩

/-- Embedding of the bbox computation of `parsear_kml`
(src/services/advanced_analysis.py lines 316-328): plain per-axis min/max of
the parsed coordinates, with the `ValueError` raised on an empty coordinate
list embedded as `none`; no zero-extent check is performed. -/
def parsear_kml_bbox (coords : List (ℚ × ℚ)) : Option BBoxA :=
  match coords with
  | [] => none
  | c :: cs =>
    some ⟨(cs.map Prod.fst).foldl min c.1, (cs.map Prod.snd).foldl min c.2,
          (cs.map Prod.fst).foldl max c.1, (cs.map Prod.snd).foldl max c.2⟩

/-- Cell-by-cell implication between two same-shape boolean masks: every cell
true in the first is true in the second. -/
def MaskLE (a b : Mask) : Prop :=
  List.Forall₂ (List.Forall₂ (fun x y => x = true → y = true)) a b

/-- The raw per-axis min/max bounding box of a nonempty vertex list (the box
the spec's `build_bbox` describes, before any expansion). -/
def minmaxBBox (pt : ℚ × ℚ) (pts : List (ℚ × ℚ)) : BBox15 :=
  ⟨(pts.map Prod.snd).foldl min pt.2, (pts.map Prod.fst).foldl min pt.1,
   (pts.map Prod.snd).foldl max pt.2, (pts.map Prod.fst).foldl max pt.1⟩

/-- Symmetric expansion of a box about its center by a factor (the spec's
`expand_bbox`). -/
def expandBBox (b : BBox15) (factor : ℚ) : BBox15 :=
  ⟨(b.lat_min + b.lat_max) / 2 - factor * ((b.lat_max - b.lat_min) / 2),
   (b.lon_min + b.lon_max) / 2 - factor * ((b.lon_max - b.lon_min) / 2),
   (b.lat_min + b.lat_max) / 2 + factor * ((b.lat_max - b.lat_min) / 2),
   (b.lon_min + b.lon_max) / 2 + factor * ((b.lon_max - b.lon_min) / 2)⟩

/-! ### Heap model for the frame property (C10)

Numpy arrays are mutable; to state that `analizar_pixeles` never mutates the
caller-visible pixel data or the stored mask, pixel arrays live in an explicit
store and are identified by references.  `pixels.copy()` allocates a fresh
array, and the fancy assignment on line 433 mutates the array it targets in
place. -/

/-- A store of pixel arrays. -/
abbrev Store := List Image

/-- Allocate a fresh array, returning the new store and its reference. -/
def heapAlloc (s : Store) (a : Image) : Store × ℕ := (s ++ [a], s.length)

/-- Read the array a reference points to. -/
def heapGet (s : Store) (r : ℕ) : Image := s.getD r []

/-- In-place overwrite of the array a reference points to. -/
def heapSet (s : Store) (r : ℕ) (a : Image) : Store := s.set r a

/-- Heap-passing embedding of `analizar_pixeles`
(src/services/advanced_analysis.py lines 397-480, mask present):
`pixels = np.array(imagen)` is the array at `imgRef`, the mask is the array
at `maskRef` in its own store (it is only ever read),
`pixels_full_masked = pixels.copy()` allocates a fresh array (line 432), and
the whitening assignment of line 433 mutates that fresh array in place.  The
final stores are returned alongside the result dictionary. -/
def analizar_pixeles_heap (s : Store) (masks : List Mask)
    (imgRef maskRef : ℕ) (config : Capa) :
    Resultado × Store × List Mask :=
  let pixels := heapGet s imgRef
  let mascara := masks.getD maskRef []
  let pixels_dentro := maskedPixels pixels mascara
  let total_pixels_poligono := pixels_dentro.length
  let pixels_blancos := blancosAxis0 pixels_dentro
  let area_util : ℤ := (total_pixels_poligono : ℤ) - (pixels_blancos : ℤ)
  let alloc := heapAlloc s pixels
  let s1 := alloc.1
  let copyRef := alloc.2
  let s2 := heapSet s1 copyRef (blanquearFuera (heapGet s1 copyRef) mascara)
  let num_afectados := countMask (maskAnd
    (detectar_color_multiple (heapGet s2 copyRef)
      config.colores_posibles config.tolerancia) mascara)
  let porcentaje_afectacion : Option ℚ :=
    if area_util = 0 then some 0
    else (divOrNone (num_afectados : ℚ) (area_util : ℚ)).map
      (fun q => pyRound2 (q * 100))
  let porcentaje_sobre_total : Option ℚ :=
    if area_util = 0 then some 0
    else (divOrNone (num_afectados : ℚ) (total_pixels_poligono : ℚ)).map
      (fun q => pyRound2 (q * 100))
  (⟨total_pixels_poligono, pixels_blancos, area_util, num_afectados,
    porcentaje_afectacion, porcentaje_sobre_total⟩, s2, masks)

/-! ### Theorems -/

/-- C8: Severity classification is a deterministic total function on
percentages with inclusive lower bounds: pct==0 maps to "none" (SIN
AFECTACIÓN); 0<pct<5 to "very low" (MUY BAJA), so 4.999 is "very low";
5<=pct<15 to "low" (BAJA), so 5.0 is "low"; 15<=pct<35 to "moderate"
(MODERADA); 35<=pct<60 to "high" (ALTA), so 59.999 is "high"; pct>=60 to
"very high" (MUY ALTA), so 60.0 is "very high". -/
theorem clasificar_afectacion_boundaries :
    clasificar_afectacion 0 = ("SIN AFECTACIÓN", "✅") ∧
    (∀ p : ℚ, 0 < p → p < 5 → clasificar_afectacion p = ("MUY BAJA", "🟢")) ∧
    (∀ p : ℚ, 5 ≤ p → p < 15 → clasificar_afectacion p = ("BAJA", "🟡")) ∧
    (∀ p : ℚ, 15 ≤ p → p < 35 → clasificar_afectacion p = ("MODERADA", "🟠")) ∧
    (∀ p : ℚ, 35 ≤ p → p < 60 → clasificar_afectacion p = ("ALTA", "🔴")) ∧
    (∀ p : ℚ, 60 ≤ p → clasificar_afectacion p = ("MUY ALTA", "🔴")) ∧
    clasificar_afectacion (4999/1000) = ("MUY BAJA", "🟢") ∧
    clasificar_afectacion 5 = ("BAJA", "🟡") ∧
    clasificar_afectacion (59999/1000) = ("ALTA", "🔴") ∧
    clasificar_afectacion 60 = ("MUY ALTA", "🔴") := by
  refine ⟨?_, ?_, ?_, ?_, ?_, ?_, ?_, ?_, ?_, ?_⟩
  · norm_num [clasificar_afectacion]
  · intro p h1 h2
    unfold clasificar_afectacion
    split_ifs <;> first | rfl | linarith
  · intro p h1 h2
    unfold clasificar_afectacion
    split_ifs <;> first | rfl | linarith
  · intro p h1 h2
    unfold clasificar_afectacion
    split_ifs <;> first | rfl | linarith
  · intro p h1 h2
    unfold clasificar_afectacion
    split_ifs <;> first | rfl | linarith
  · intro p h1
    unfold clasificar_afectacion
    split_ifs <;> first | rfl | linarith
  · norm_num [clasificar_afectacion]
  · norm_num [clasificar_afectacion]
  · norm_num [clasificar_afectacion]
  · norm_num [clasificar_afectacion]

/-- C8 witness: the classification theorem applied at concrete percentages
inside two of the half-open bands. -/
theorem clasificar_afectacion_boundaries_witness :
    clasificar_afectacion 7 = ("BAJA", "🟡") ∧
    clasificar_afectacion 40 = ("ALTA", "🔴") :=
  ⟨clasificar_afectacion_boundaries.2.2.1 7 (by norm_num) (by norm_num),
   clasificar_afectacion_boundaries.2.2.2.2.1 40 (by norm_num) (by norm_num)⟩

/-- Helper: `analizar_pixeles` with a mask and an image present, with the
three array computations abstracted into hypotheses so that concrete runs can
be discharged by kernel evaluation of the integer parts alone. -/
lemma analizar_pixeles_some_eq (m : Mask) (pixels : Image) (config : Capa)
    (total blancos num : ℕ)
    (h1 : (maskedPixels pixels m).length = total)
    (h2 : blancosAxis0 (maskedPixels pixels m) = blancos)
    (h3 : countMask (maskAnd (detectar_color_multiple (blanquearFuera pixels m)
      config.colores_posibles config.tolerancia) m) = num) :
    analizar_pixeles (some m) (some pixels) config =
      .ok ⟨total, blancos, (total : ℤ) - (blancos : ℤ), num,
        (if (total : ℤ) - (blancos : ℤ) = 0 then some 0
          else (divOrNone (num : ℚ) (((total : ℤ) - (blancos : ℤ) : ℤ) : ℚ)).map
            (fun q => pyRound2 (q * 100))),
        (if (total : ℤ) - (blancos : ℤ) = 0 then some 0
          else (divOrNone (num : ℚ) (total : ℚ)).map
            (fun q => pyRound2 (q * 100)))⟩ := by
  subst h1 h2 h3
  rfl

/-- C5: the classifier marks a pixel as matched iff there exists at least one
target color for which the three per-channel absolute differences are all at
most the tolerance (OR across the color set, AND across channels); and a
pixel matched by several target colors is counted exactly once: the pixel
(20,130,10), matched by both (34,139,34) and (0,128,0) at tolerance 40,
contributes exactly 1 to `pixels_afectados`. -/
theorem detectar_color_multiple_or_semantics :
    (∀ (pixels : Image) (colores : List Pix) (tol : ℤ),
      detectar_color_multiple pixels colores tol =
        pixels.map (fun row => row.map (fun p => decide (∃ c ∈ colores,
          |p.1 - c.1| ≤ tol ∧ |p.2.1 - c.2.1| ≤ tol ∧
            |p.2.2 - c.2.2| ≤ tol)))) ∧
    analizar_pixeles (some [[true]]) (some [[((20 : ℤ), (130 : ℤ), (10 : ℤ))]])
      ⟨[(34, 139, 34), (0, 128, 0)], 40⟩ =
      .ok ⟨1, 0, 1, 1, some 100, some 100⟩ := by
  constructor
  · intro pixels colores tol
    unfold detectar_color_multiple
    have hpix : ∀ p : Pix,
        (colores.any (fun c => matchColor tol c p)) = decide (∃ c ∈ colores,
          |p.1 - c.1| ≤ tol ∧ |p.2.1 - c.2.1| ≤ tol ∧
            |p.2.2 - c.2.2| ≤ tol) := by
      intro p
      rw [Bool.eq_iff_iff, List.any_eq_true, decide_eq_true_eq]
      constructor
      · rintro ⟨c, hc, hm⟩
        rw [matchColor, Bool.and_eq_true, Bool.and_eq_true] at hm
        obtain ⟨⟨a1, a2⟩, a3⟩ := hm
        exact ⟨c, hc, decide_eq_true_eq.mp a1, decide_eq_true_eq.mp a2,
          decide_eq_true_eq.mp a3⟩
      · rintro ⟨c, hc, a1, a2, a3⟩
        refine ⟨c, hc, ?_⟩
        rw [matchColor, Bool.and_eq_true, Bool.and_eq_true]
        exact ⟨⟨decide_eq_true_eq.mpr a1, decide_eq_true_eq.mpr a2⟩,
          decide_eq_true_eq.mpr a3⟩
    simp only [hpix]
  · rw [analizar_pixeles_some_eq _ _ _ 1 0 1 (by decide) (by decide)
      (by decide)]
    norm_num [divOrNone, pyRound2, roundHalfEven]

/-- C2 (divergence record): on an empty polygon-image intersection (the
inclusion mask all false, total = 0), `analizar_pixeles` does NOT return all
zeros: because `np.all(pixels_dentro > 240, axis=0)` reduces over the pixel
axis and `np.all` of an empty axis is true on each of the 3 channels, the
blank count is 3, `area_util` is -3 (not 0), the `area_util == 0` zero-area
guard is missed, and `porcentaje_sobre_total` is the non-finite 0/0 (NaN,
embedded as `none`) instead of 0. -/
theorem analizar_pixeles_empty_mask_eval :
    analizar_pixeles (some [[false, false], [false, false]])
      (some [[((255 : ℤ), (255 : ℤ), (255 : ℤ)), (255, 255, 255)],
             [(255, 255, 255), (255, 255, 255)]])
      ⟨[(34, 139, 34), (0, 128, 0), (46, 125, 50), (76, 175, 80)], 40⟩ =
      .ok ⟨0, 3, -3, 0, some 0, none⟩ := by
  rw [analizar_pixeles_some_eq _ _ _ 0 3 0 (by decide) (by decide) (by decide)]
  norm_num [divOrNone, pyRound2, roundHalfEven]

/-- C3 (divergence record): `crear_mascara_poligono` follows the spec's
affine mapping (latitude max_lat maps to pixel row 0), but
`calcular_porcentaje_pixeles` samples latitudes with an ascending
`np.linspace(lat_min, lat_max, height)`: its row 0 is the MINIMUM latitude
and its rows grow upward in latitude, the vertical mirror of the §3 mapping;
its columns also step by (max-min)/(width-1), endpoints inclusive, not
x/width.  At bbox lat,lon ∈ [0,10] with a 3-sample axis: row 0 samples
latitude 0 where the spec mapping (and `pixel_y`) put latitude 10. -/
theorem calcular_porcentaje_row_order_bug :
    ys_sample ⟨0, 0, 10, 10⟩ 3 0 = 0 ∧
    ys_sample ⟨0, 0, 10, 10⟩ 3 2 = 10 ∧
    spec_lat_of_row ⟨0, 0, 10, 10⟩ 3 0 = 10 ∧
    ys_sample ⟨0, 0, 10, 10⟩ 3 0 ≠ spec_lat_of_row ⟨0, 0, 10, 10⟩ 3 0 ∧
    pixel_y ⟨0, 0, 10, 10⟩ 3 10 = 0 ∧
    xs_sample ⟨0, 0, 10, 10⟩ 3 1 = 5 ∧
    spec_lon_of_col ⟨0, 0, 10, 10⟩ 3 1 = 10 / 3 := by
  norm_num [ys_sample, xs_sample, linspace, spec_lat_of_row, spec_lon_of_col,
    pixel_y, ratTrunc]

/-- Helper: on a nonempty vertex list, `get_bbox_from_polygons` is the ×3
expansion of the raw min/max box. -/
lemma get_bbox_eq_expand (polygons : List Poly) (pt : ℚ × ℚ)
    (pts : List (ℚ × ℚ))
    (h : (polygons.map (fun poly => poly.flatten)).flatten = pt :: pts) :
    get_bbox_from_polygons polygons =
      some (expandBBox (minmaxBBox pt pts) 3) := by
  unfold get_bbox_from_polygons
  rw [h]
  simp only [expandBBox, minmaxBBox, Option.some.injEq, BBox15.mk.injEq]
  refine ⟨by ring, by ring, by ring, by ring⟩

/-- Helper: `get_bbox_from_polygons` fails exactly on an empty vertex list. -/
lemma get_bbox_none_iff (polygons : List Poly) :
    get_bbox_from_polygons polygons = none ↔
      (polygons.map (fun poly => poly.flatten)).flatten = [] := by
  unfold get_bbox_from_polygons
  cases h : (polygons.map (fun poly => poly.flatten)).flatten with
  | nil => simp
  | cons pt pts => simp

/-- C6 counterexample: `get_bbox_from_polygons` does not return the per-axis
min/max of the vertices — for vertices (0,0) and (2,2) it returns the box
expanded by the hardcoded zoom factor 3, (-2,-2,4,4), not (0,0,2,2) — and
neither bbox constructor fails on zero-extent input: a single vertex (1,5)
yields the degenerate box (5,1,5,1) from `get_bbox_from_polygons` and the
degenerate box from `parsear_kml`, instead of an error. -/
theorem get_bbox_zoom_counterexample :
    get_bbox_from_polygons [[[((0 : ℚ), (0 : ℚ)), (2, 2)]]] =
      some ⟨-2, -2, 4, 4⟩ ∧
    get_bbox_from_polygons [[[((0 : ℚ), (0 : ℚ)), (2, 2)]]] ≠
      some ⟨0, 0, 2, 2⟩ ∧
    get_bbox_from_polygons [[[((1 : ℚ), (5 : ℚ))]]] = some ⟨5, 1, 5, 1⟩ ∧
    parsear_kml_bbox [((1 : ℚ), (5 : ℚ))] = some ⟨1, 5, 1, 5⟩ := by
  rw [get_bbox_eq_expand [[[((0 : ℚ), (0 : ℚ)), (2, 2)]]] ((0 : ℚ), (0 : ℚ))
      [((2 : ℚ), (2 : ℚ))] rfl,
    get_bbox_eq_expand [[[((1 : ℚ), (5 : ℚ))]]] ((1 : ℚ), (5 : ℚ)) [] rfl]
  refine ⟨?_, ?_, ?_, rfl⟩ <;>
    norm_num [expandBBox, minmaxBBox, min_def, max_def, BBox15.mk.injEq]

/-- C6 amended: bounding-box construction collects all vertices across all
rings of all polygons and fails (Python `ValueError` from `min()` on an empty
sequence, embedded as `none`) iff no vertices are supplied; on nonempty input
it returns the per-axis min/max box expanded symmetrically about its center
by the hardcoded zoom factor 3 (so a zero-extent vertex set yields a
degenerate box rather than an error); `parsear_kml` returns the plain min/max
box, likewise failing only on an empty coordinate list and never on zero
extent; both are pure functions. -/
theorem get_bbox_amended_spec :
    (∀ polygons : List Poly, get_bbox_from_polygons polygons = none ↔
      (polygons.map (fun poly => poly.flatten)).flatten = []) ∧
    (∀ (polygons : List Poly) (pt : ℚ × ℚ) (pts : List (ℚ × ℚ)),
      (polygons.map (fun poly => poly.flatten)).flatten = pt :: pts →
      get_bbox_from_polygons polygons =
        some (expandBBox (minmaxBBox pt pts) 3)) ∧
    (∀ coords : List (ℚ × ℚ), parsear_kml_bbox coords = none ↔ coords = []) ∧
    (∀ (c : ℚ × ℚ) (cs : List (ℚ × ℚ)),
      parsear_kml_bbox (c :: cs) =
        some ⟨(cs.map Prod.fst).foldl min c.1, (cs.map Prod.snd).foldl min c.2,
              (cs.map Prod.fst).foldl max c.1,
              (cs.map Prod.snd).foldl max c.2⟩) := by
  refine ⟨get_bbox_none_iff, get_bbox_eq_expand, ?_, fun c cs => rfl⟩
  intro coords
  cases coords <;> simp [parsear_kml_bbox]

/-- C6 amended witness: the amended bbox theorem applied to the concrete
vertex lists of the counterexample. -/
theorem get_bbox_amended_spec_witness :
    get_bbox_from_polygons [[[((0 : ℚ), (0 : ℚ)), (2, 2)]]] =
      some (expandBBox (minmaxBBox (0, 0) [(2, 2)]) 3) :=
  get_bbox_amended_spec.2.1 [[[((0 : ℚ), (0 : ℚ)), (2, 2)]]] (0, 0) [(2, 2)]
    (by decide)

/-! ### Replicate lemmas, used to evaluate the all-white 100×100 scenario -/

/-- Helper: zip of two equally long replicated lists. -/
lemma zip_replicate_replicate {α β : Type} (n : ℕ) (a : α) (b : β) :
    (List.replicate n a).zip (List.replicate n b) = List.replicate n (a, b) := by
  induction n with
  | zero => rfl
  | succ k ih => simp [List.replicate_succ, ih]

/-- Helper: flatten of a replicated replicated list. -/
lemma flatten_replicate_replicate {α : Type} (n m : ℕ) (a : α) :
    (List.replicate n (List.replicate m a)).flatten =
      List.replicate (n * m) a := by
  induction n with
  | zero => simp
  | succ k ih =>
    rw [List.replicate_succ, List.flatten_cons, ih, Nat.succ_mul,
      Nat.add_comm, List.replicate_add]

/-- Helper: the masked pixel list of a constant image under an all-true mask
is the row-major pixel list. -/
lemma maskedPixels_replicate (n m : ℕ) (p : Pix) :
    maskedPixels (List.replicate n (List.replicate m p))
      (List.replicate n (List.replicate m true)) =
      List.replicate (n * m) p := by
  unfold maskedPixels
  rw [zip_replicate_replicate, List.map_replicate, zip_replicate_replicate]
  have hrow : (List.replicate m (p, true)).filterMap
      (fun pb : Pix × Bool => if pb.2 then some pb.1 else none) =
      List.replicate m p := by
    induction m with
    | zero => rfl
    | succ k ih => simp [List.replicate_succ, ih]
  rw [hrow, flatten_replicate_replicate]

/-- Helper: the axis-0 blank reduction over a nonzero number of copies of
pure white claims all three channels blank. -/
lemma blancosAxis0_replicate_white (k : ℕ) :
    blancosAxis0 (List.replicate k ((255 : ℤ), (255 : ℤ), (255 : ℤ))) = 3 := by
  unfold blancosAxis0
  have hall : ∀ f : Pix → Bool, f ((255 : ℤ), (255 : ℤ), (255 : ℤ)) = true →
      (List.replicate k ((255 : ℤ), (255 : ℤ), (255 : ℤ))).all f = true := by
    intro f hf
    rw [List.all_eq_true]
    intro p hp
    rw [List.eq_of_mem_replicate hp]
    exact hf
  rw [if_pos (hall _ (by decide)), if_pos (hall _ (by decide)),
    if_pos (hall _ (by decide))]

/-- Helper: whitening outside an all-true mask leaves the image unchanged. -/
lemma blanquearFuera_replicate_full (n m : ℕ) (p : Pix) :
    blanquearFuera (List.replicate n (List.replicate m p))
      (List.replicate n (List.replicate m true)) =
      List.replicate n (List.replicate m p) := by
  unfold blanquearFuera
  rw [zip_replicate_replicate, List.map_replicate, zip_replicate_replicate,
    List.map_replicate]
  simp

/-- Helper: the multi-color detection over a constant image is the replicated
per-pixel test. -/
lemma detectar_replicate (n m : ℕ) (p : Pix) (colores : List Pix) (tol : ℤ) :
    detectar_color_multiple (List.replicate n (List.replicate m p))
      colores tol =
      List.replicate n (List.replicate m
        (colores.any (fun c => matchColor tol c p))) := by
  unfold detectar_color_multiple
  rw [List.map_replicate, List.map_replicate]

/-- Helper: an all-false mask ANDed with anything counts zero. -/
lemma countMask_maskAnd_false (n m : ℕ) :
    countMask (maskAnd (List.replicate n (List.replicate m false))
      (List.replicate n (List.replicate m true))) = 0 := by
  unfold maskAnd countMask
  rw [zip_replicate_replicate, List.map_replicate, zip_replicate_replicate,
    List.map_replicate, List.map_replicate]
  simp [List.count_replicate]

set_option maxRecDepth 4000 in
/-- C1 (divergence record): on the spec's 100×100 all-white image with an
all-true mask, `analizar_pixeles` reports only 3 blank pixels (not 10000) and
a usable area of 9997 (not 0): `np.all(pixels_dentro > 240, axis=0)` reduces
over the pixel axis of the (N,3) masked array, so the "blank count" is the
number of channels that are >240 on every pixel — never more than 3 for any
image whatsoever — instead of the number of pixels with all channels >240. -/
theorem analizar_pixeles_blank_axis_bug :
    analizar_pixeles (some (List.replicate 100 (List.replicate 100 true)))
      (some (List.replicate 100
        (List.replicate 100 ((255 : ℤ), (255 : ℤ), (255 : ℤ)))))
      ⟨[(34, 139, 34), (0, 128, 0), (46, 125, 50), (76, 175, 80)], 40⟩ =
      .ok ⟨10000, 3, 9997, 0, some 0, some 0⟩ ∧
    ∀ ps : List Pix, blancosAxis0 ps ≤ 3 := by
  constructor
  · have h1 : (maskedPixels
        (List.replicate 100
          (List.replicate 100 ((255 : ℤ), (255 : ℤ), (255 : ℤ))))
        (List.replicate 100 (List.replicate 100 true))).length = 10000 := by
      rw [maskedPixels_replicate, List.length_replicate]
    have h2 : blancosAxis0 (maskedPixels
        (List.replicate 100
          (List.replicate 100 ((255 : ℤ), (255 : ℤ), (255 : ℤ))))
        (List.replicate 100 (List.replicate 100 true))) = 3 := by
      rw [maskedPixels_replicate]
      exact blancosAxis0_replicate_white _
    have h3 : countMask (maskAnd (detectar_color_multiple
        (blanquearFuera
          (List.replicate 100
            (List.replicate 100 ((255 : ℤ), (255 : ℤ), (255 : ℤ))))
          (List.replicate 100 (List.replicate 100 true)))
        [((34 : ℤ), (139 : ℤ), (34 : ℤ)), (0, 128, 0), (46, 125, 50),
          (76, 175, 80)] 40)
        (List.replicate 100 (List.replicate 100 true))) = 0 := by
      rw [blanquearFuera_replicate_full, detectar_replicate]
      have hw : (([((34 : ℤ), (139 : ℤ), (34 : ℤ)), (0, 128, 0), (46, 125, 50),
          (76, 175, 80)] : List Pix).any
          (fun c => matchColor 40 c ((255 : ℤ), (255 : ℤ), (255 : ℤ)))) =
          false := by decide
      rw [hw]
      exact countMask_maskAnd_false 100 100
    refine Eq.trans (analizar_pixeles_some_eq _ _ _ 10000 3 0 h1 h2 h3) ?_
    norm_num [divOrNone, pyRound2, roundHalfEven]
  · intro ps
    unfold blancosAxis0
    split_ifs <;> omega

/-! ### Tolerance monotonicity (C9) -/

/-- Helper: mapping two functions over one list gives `Forall₂`-related
results whenever the functions are pointwise related on the list. -/
lemma forall₂_map_self {α β : Type} (l : List α) (f g : α → β)
    (R : β → β → Prop) (h : ∀ a ∈ l, R (f a) (g a)) :
    List.Forall₂ R (l.map f) (l.map g) := by
  induction l with
  | nil => exact List.Forall₂.nil
  | cons a l ih =>
    exact List.Forall₂.cons (h a (List.mem_cons_self a l))
      (ih (fun x hx => h x (List.mem_cons_of_mem a hx)))

/-- Helper: a cellwise implication between rows bounds the count of true
cells. -/
lemma count_true_le_of_forall₂ {r₁ r₂ : List Bool}
    (h : List.Forall₂ (fun x y => x = true → y = true) r₁ r₂) :
    r₁.count true ≤ r₂.count true := by
  induction h with
  | nil => exact le_refl _
  | @cons x y l₁ l₂ hxy _ ih =>
    simp only [List.count_cons, beq_iff_eq]
    cases x
    · cases y <;> simp <;> omega
    · rw [hxy rfl]
      simp
      omega

/-- Helper: `MaskLE` bounds `countMask`. -/
lemma countMask_le_of_maskLE {a b : Mask} (h : MaskLE a b) :
    countMask a ≤ countMask b := by
  unfold countMask
  induction h with
  | nil => exact le_refl _
  | cons hxy _ ih =>
    simp only [List.map_cons, List.sum_cons]
    exact Nat.add_le_add (count_true_le_of_forall₂ hxy) ih

/-- Helper: the per-candidate color test is monotone in the tolerance. -/
lemma matchColor_mono {t1 t2 : ℤ} (h : t1 ≤ t2) (c p : Pix) :
    matchColor t1 c p = true → matchColor t2 c p = true := by
  simp only [matchColor, Bool.and_eq_true, decide_eq_true_eq]
  rintro ⟨⟨a1, a2⟩, a3⟩
  exact ⟨⟨le_trans a1 h, le_trans a2 h⟩, le_trans a3 h⟩

/-- C9: the classifier is monotonic in tolerance: for a fixed image and fixed
target-color set and tolerances t1 <= t2, every pixel matched at t1 is
matched at t2 (cellwise subset of masks), so the matched pixel count never
decreases. -/
theorem detectar_color_multiple_mono_tolerance :
    ∀ (pixels : Image) (colores : List Pix) (t1 t2 : ℤ), t1 ≤ t2 →
      MaskLE (detectar_color_multiple pixels colores t1)
        (detectar_color_multiple pixels colores t2) ∧
      countMask (detectar_color_multiple pixels colores t1) ≤
        countMask (detectar_color_multiple pixels colores t2) := by
  intro pixels colores t1 t2 h
  have hm : MaskLE (detectar_color_multiple pixels colores t1)
      (detectar_color_multiple pixels colores t2) := by
    unfold MaskLE detectar_color_multiple
    refine forall₂_map_self _ _ _ _ (fun row _ => ?_)
    refine forall₂_map_self _ _ _ _ (fun p _ => ?_)
    simp only [List.any_eq_true]
    rintro ⟨c, hc, hmc⟩
    exact ⟨c, hc, matchColor_mono h c p hmc⟩
  exact ⟨hm, countMask_le_of_maskLE hm⟩

/-- C9 witness: the monotonicity theorem applied to a concrete one-pixel
image and a concrete tolerance pair 5 <= 20. -/
theorem detectar_color_multiple_mono_tolerance_witness :
    MaskLE (detectar_color_multiple [[((0 : ℤ), (0 : ℤ), (0 : ℤ))]]
        [((10 : ℤ), (10 : ℤ), (10 : ℤ))] 5)
      (detectar_color_multiple [[((0 : ℤ), (0 : ℤ), (0 : ℤ))]]
        [((10 : ℤ), (10 : ℤ), (10 : ℤ))] 20) ∧
    countMask (detectar_color_multiple [[((0 : ℤ), (0 : ℤ), (0 : ℤ))]]
        [((10 : ℤ), (10 : ℤ), (10 : ℤ))] 5) ≤
      countMask (detectar_color_multiple [[((0 : ℤ), (0 : ℤ), (0 : ℤ))]]
        [((10 : ℤ), (10 : ℤ), (10 : ℤ))] 20) :=
  detectar_color_multiple_mono_tolerance [[((0 : ℤ), (0 : ℤ), (0 : ℤ))]]
    [((10 : ℤ), (10 : ℤ), (10 : ℤ))] 5 20 (by decide)

/-! ### Per-layer orchestration (C7) -/

/-- C7: for every mask, layer configuration list and download outcome
function, the report of `analizar_todas_capas` has exactly one entry per
configured layer, in order and keyed by the layer name (never a silently
missing layer), and a layer's entry is the structured error variant exactly
when its raster download failed; the run is a total function, so one layer's
failure never aborts the others. -/
theorem analizar_todas_capas_per_layer :
    ∀ (mascara : Option Mask) (capas : List (String × Capa))
      (descargar : String → Option Image),
      (analizar_todas_capas mascara capas descargar).map Prod.fst =
        capas.map Prod.fst ∧
      (∀ (i : ℕ) (nc : String × Capa), capas[i]? = some nc →
        ∃ out, (analizar_todas_capas mascara capas descargar)[i]? =
            some (nc.1, out) ∧
          ((∃ e, out = AnalisisOutcome.error e) ↔ descargar nc.1 = none)) := by
  intro mascara capas descargar
  constructor
  · unfold analizar_todas_capas
    rw [List.map_map]
    rfl
  · intro i nc hget
    refine ⟨analizar_pixeles mascara (descargar nc.1) nc.2, ?_, ?_⟩
    · unfold analizar_todas_capas
      rw [List.getElem?_map, hget]
      rfl
    · cases hd : descargar nc.1 with
      | none => simp [analizar_pixeles, hd]
      | some img => simp [analizar_pixeles, hd]

/-- C7 witness: the orchestration theorem applied to a concrete two-layer
run in which the first layer's download fails and the second succeeds. -/
theorem analizar_todas_capas_per_layer_witness :
    ∃ out, (analizar_todas_capas (some [[true]])
        [("red_natura", ⟨[((0 : ℤ), (128 : ℤ), (0 : ℤ))], 45⟩),
         ("montes_publicos", ⟨[((34 : ℤ), (139 : ℤ), (34 : ℤ))], 40⟩)]
        (fun name => if name = "red_natura" then none
          else some [[((0 : ℤ), (128 : ℤ), (0 : ℤ))]]))[0]? =
        some ("red_natura", out) ∧
      ((∃ e, out = AnalisisOutcome.error e) ↔
        (fun name => if name = "red_natura" then none
          else some [[((0 : ℤ), (128 : ℤ), (0 : ℤ))]] :
            String → Option Image) "red_natura" = none) :=
  (analizar_todas_capas_per_layer (some [[true]])
    [("red_natura", ⟨[((0 : ℤ), (128 : ℤ), (0 : ℤ))], 45⟩),
     ("montes_publicos", ⟨[((34 : ℤ), (139 : ℤ), (34 : ℤ))], 40⟩)]
    (fun name => if name = "red_natura" then none
      else some [[((0 : ℤ), (128 : ℤ), (0 : ℤ))]])).2 0
    ("red_natura", ⟨[((0 : ℤ), (128 : ℤ), (0 : ℤ))], 45⟩) rfl

/-! ### Frame property of the analysis (C10) -/

/-- C10: the analysis mutates neither the stored mask nor any caller-visible
pixel array: the whitening of pixels outside the polygon is performed on the
freshly allocated copy (`pixels.copy()`), so after `analizar_pixeles_heap`
the mask store is unchanged and every pre-existing reference of the pixel
store still holds its original array. -/
theorem analizar_pixeles_heap_frame :
    ∀ (s : Store) (masks : List Mask) (imgRef maskRef : ℕ) (config : Capa),
      (analizar_pixeles_heap s masks imgRef maskRef config).2.2 = masks ∧
      ∀ r : ℕ, r < s.length →
        (analizar_pixeles_heap s masks imgRef maskRef config).2.1[r]? =
          s[r]? := by
  intro s masks imgRef maskRef config
  refine ⟨rfl, ?_⟩
  intro r hr
  unfold analizar_pixeles_heap heapSet heapAlloc
  rw [List.getElem?_set_ne (by omega), List.getElem?_append_left hr]

/-- C10 witness: the frame theorem applied to a concrete one-array store, a
one-mask store and the reference 0. -/
theorem analizar_pixeles_heap_frame_witness :
    (analizar_pixeles_heap [[[((7 : ℤ), (8 : ℤ), (9 : ℤ))]]] [[[true]]] 0 0
      ⟨[((0 : ℤ), (128 : ℤ), (0 : ℤ))], 45⟩).2.2 = [[[true]]] ∧
    (analizar_pixeles_heap [[[((7 : ℤ), (8 : ℤ), (9 : ℤ))]]] [[[true]]] 0 0
      ⟨[((0 : ℤ), (128 : ℤ), (0 : ℤ))], 45⟩).2.1[0]? =
      [[[((7 : ℤ), (8 : ℤ), (9 : ℤ))]]][0]? :=
  ⟨(analizar_pixeles_heap_frame [[[((7 : ℤ), (8 : ℤ), (9 : ℤ))]]] [[[true]]]
      0 0 ⟨[((0 : ℤ), (128 : ℤ), (0 : ℤ))], 45⟩).1,
   (analizar_pixeles_heap_frame [[[((7 : ℤ), (8 : ℤ), (9 : ℤ))]]] [[[true]]]
      0 0 ⟨[((0 : ℤ), (128 : ℤ), (0 : ℤ))], 45⟩).2 0 (by decide)⟩

/-! ### Polygon-with-holes mask semantics (C4) -/

/-- Helper: value of one cell of the `calcular_porcentaje_pixeles` mask. -/
lemma mask15_cell (polygons : List Poly) (bbox : BBox15) (w h i j : ℕ)
    (hi : i < h) (hj : j < w) :
    (mask15 polygons bbox w h)[i]?.bind (fun row => row[j]?) =
      some (multiContains (polygons_to_shapely polygons)
        (xs_sample bbox w j, ys_sample bbox h i)) := by
  unfold mask15
  rw [List.getElem?_map, List.getElem?_range hi]
  simp only [Option.map_some', Option.some_bind]
  rw [List.getElem?_map, List.getElem?_range hj]
  simp only [Option.map_some']

/-- Helper: containment in a single polygon-with-holes via the multipolygon
wrapper. -/
lemma multiContains_cons_single (ext : Ring) (holes : List Ring)
    (p : ℚ × ℚ) :
    multiContains (polygons_to_shapely [ext :: holes]) p =
      (evenOddInside ext p && holes.all (fun hl => !evenOddInside hl p)) := by
  simp [multiContains, polygons_to_shapely, polyContains]

/-- Helper: cellwise count addition over a mapped row. -/
lemma count_true_map_add {α : Type} (l : List α) (f g k : α → Bool)
    (H : ∀ x ∈ l, (if f x = true then 1 else 0) +
      (if g x = true then 1 else 0) = (if k x = true then 1 else 0)) :
    (l.map f).count true + (l.map g).count true = (l.map k).count true := by
  induction l with
  | nil => rfl
  | cons a l ih =>
    have ha := H a (List.mem_cons_self a l)
    have ih' := ih (fun x hx => H x (List.mem_cons_of_mem a hx))
    simp only [List.map_cons, List.count_cons, beq_iff_eq]
    split_ifs at ha ⊢ <;> omega

/-- Helper: pointwise addition under a mapped sum. -/
lemma sum_map_add {α : Type} (l : List α) (F G K : α → ℕ)
    (H : ∀ x ∈ l, F x + G x = K x) :
    (l.map F).sum + (l.map G).sum = (l.map K).sum := by
  induction l with
  | nil => rfl
  | cons a l ih =>
    have ha := H a (List.mem_cons_self a l)
    have ih' := ih (fun x hx => H x (List.mem_cons_of_mem a hx))
    simp only [List.map_cons, List.sum_cons]
    omega

/-- C4: for a polygon given as rings (ring 0 the exterior, later rings
holes), the inclusion mask of `calcular_porcentaje_pixeles` is true at a grid
cell iff the cell's sample point is inside the exterior ring and outside
every hole ring; hence for a polygon with one hole whose raster footprint
lies inside the exterior's, the mask count of exterior-with-hole plus the
mask count of the hole alone equals the mask count of the exterior alone
(exact, so in particular within ±1 pixel). -/
theorem mask15_rings_spec :
    (∀ (ext : Ring) (holes : List Ring) (bbox : BBox15) (w h i j : ℕ),
      i < h → j < w →
      ((mask15 [ext :: holes] bbox w h)[i]?.bind (fun row => row[j]?) =
          some true ↔
        (evenOddInside ext (xs_sample bbox w j, ys_sample bbox h i) = true ∧
         ∀ hl ∈ holes,
           evenOddInside hl (xs_sample bbox w j, ys_sample bbox h i) =
             false))) ∧
    (∀ (ext hole : Ring) (bbox : BBox15) (w h : ℕ),
      (∀ i ∈ List.range h, ∀ j ∈ List.range w,
        evenOddInside hole (xs_sample bbox w j, ys_sample bbox h i) = true →
        evenOddInside ext (xs_sample bbox w j, ys_sample bbox h i) = true) →
      countMask (mask15 [[ext, hole]] bbox w h) +
        countMask (mask15 [[hole]] bbox w h) =
        countMask (mask15 [[ext]] bbox w h)) := by
  constructor
  · intro ext holes bbox w h i j hi hj
    rw [mask15_cell _ _ _ _ _ _ hi hj, multiContains_cons_single,
      Option.some_inj]
    simp only [Bool.and_eq_true, List.all_eq_true, Bool.not_eq_true']
  · intro ext hole bbox w h H
    unfold countMask mask15
    rw [List.map_map, List.map_map, List.map_map]
    refine sum_map_add _ _ _ _ (fun i hi => ?_)
    simp only [Function.comp]
    refine count_true_map_add _ _ _ _ (fun j hj => ?_)
    have hij := H i hi j hj
    rw [multiContains_cons_single, multiContains_cons_single,
      multiContains_cons_single]
    cases he : evenOddInside ext (xs_sample bbox w j, ys_sample bbox h i) <;>
      cases hh : evenOddInside hole (xs_sample bbox w j, ys_sample bbox h i)
    · simp
    · exact absurd (hij hh) (by simp [he])
    · simpa using hh
    · simpa using hh

/-- C4 witness: the ring-mask theorem applied to a concrete 4×4 square
exterior on a 5×5 grid (cell (2,2), no holes) and, for the count identity,
to a hole coinciding with the exterior, whose footprint is trivially inside
it. -/
theorem mask15_rings_spec_witness :
    (((mask15 [[[((0 : ℚ), (0 : ℚ)), (4, 0), (4, 4), (0, 4)]]]
        ⟨0, 0, 4, 4⟩ 5 5)[2]?.bind (fun row => row[2]?) = some true ↔
      (evenOddInside [((0 : ℚ), (0 : ℚ)), (4, 0), (4, 4), (0, 4)]
          (xs_sample ⟨0, 0, 4, 4⟩ 5 2, ys_sample ⟨0, 0, 4, 4⟩ 5 2) = true ∧
       ∀ hl ∈ ([] : List Ring),
         evenOddInside hl
           (xs_sample ⟨0, 0, 4, 4⟩ 5 2, ys_sample ⟨0, 0, 4, 4⟩ 5 2) =
           false))) ∧
    countMask (mask15 [[[((0 : ℚ), (0 : ℚ)), (4, 0), (4, 4), (0, 4)],
        [((0 : ℚ), (0 : ℚ)), (4, 0), (4, 4), (0, 4)]]] ⟨0, 0, 4, 4⟩ 5 5) +
      countMask (mask15 [[[((0 : ℚ), (0 : ℚ)), (4, 0), (4, 4), (0, 4)]]]
        ⟨0, 0, 4, 4⟩ 5 5) =
      countMask (mask15 [[[((0 : ℚ), (0 : ℚ)), (4, 0), (4, 4), (0, 4)]]]
        ⟨0, 0, 4, 4⟩ 5 5) :=
  ⟨mask15_rings_spec.1 [((0 : ℚ), (0 : ℚ)), (4, 0), (4, 4), (0, 4)] []
      ⟨0, 0, 4, 4⟩ 5 5 2 2 (by decide) (by decide),
   mask15_rings_spec.2 [((0 : ℚ), (0 : ℚ)), (4, 0), (4, 4), (0, 4)]
      [((0 : ℚ), (0 : ℚ)), (4, 0), (4, 4), (0, 4)] ⟨0, 0, 4, 4⟩ 5 5
      (fun _ _ _ _ hh => hh)⟩

end Catastro
